import Mathlib

/-!
Shallow embedding of the gdscript-libs repository (a Go port of a slice of
the Godot engine math library) for checking its natural-language
specification.  float64 arithmetic is idealised as exact rational
arithmetic (ℚ); the square root needed by vector length is idealised over
the reals (ℝ).  Division results that the source maps to IEEE infinities
are modelled by the extended type `ERat`.  Every definition is translated
line by line from the Go source named in its doc comment.
-/

set_option maxHeartbeats 1000000

namespace GdScript

/-- `CMP_EPSILON` from src/pkg/mathgd/mathgd.go line 40 (0.00001). -/
def CMP_EPSILON : ℚ := 1 / 100000

/-- `TAU` from src/pkg/mathgd/mathgd.go line 52. -/
def TAU : ℚ := 62831853071795864769252867666 / 10 ^ 28

/-- `PI` from src/pkg/mathgd/mathgd.go line 55. -/
def PI : ℚ := 31415926535897932384626433833 / 10 ^ 28

/-- `IsZeroApprox` from src/pkg/mathgd/mathgd.go lines 69-71. -/
def IsZeroApprox (x : ℚ) : Bool := |x| < CMP_EPSILON

/-- `IsEqualApprox` from src/pkg/mathgd/mathgd.go lines 74-76. -/
def IsEqualApprox (x y : ℚ) : Bool := IsZeroApprox (x - y)

/-- `Clampf` from src/pkg/mathgd/mathgd.go lines 107-115. -/
def Clampf (val mn mx : ℚ) : ℚ :=
  if val < mn then mn else if val > mx then mx else val

/-- Truncation toward zero, the rounding used by Go `math.Mod`. -/
def rtrunc (q : ℚ) : ℤ := if 0 ≤ q then ⌊q⌋ else ⌈q⌉

/-- Go `math.Mod(x, y)`: the remainder `x - y*trunc(x/y)`, whose sign
follows `x`.  Used by `AngleDifference`. -/
def gomod (x y : ℚ) : ℚ := x - y * (rtrunc (x / y) : ℚ)

/-- `AngleDifference` from src/pkg/mathgd/mathgd.go lines 269-272. -/
def AngleDifference (pFrom pTo : ℚ) : ℚ :=
  let difference := gomod (pTo - pFrom) TAU
  gomod (2 * difference) TAU - difference

/-- `RotateToward` from src/pkg/mathgd/mathgd.go lines 314-323, including
the branch that returns `-1.0` when the angle difference is negative. -/
def RotateToward (pFrom pTo pDelta : ℚ) : ℚ :=
  let difference := AngleDifference pFrom pTo
  let absDifference := |difference|
  let r := pFrom + Clampf pDelta (absDifference - PI) absDifference
  if difference ≥ 0 then r * 1 else -1

/-- The two-component vector of src/unnamed/part_001 (package vector2),
with float64 idealised as ℚ. -/
structure Vector2 where
  X : ℚ
  Y : ℚ
deriving DecidableEq, Repr

namespace Vector2

/-- `Vector2.Add` from src/unnamed/part_001 lines 60-64. -/
def Add (v b : Vector2) : Vector2 := ⟨v.X + b.X, v.Y + b.Y⟩

/-- `Vector2.Sub` from src/unnamed/part_001 lines 66-70. -/
def Sub (v b : Vector2) : Vector2 := ⟨v.X - b.X, v.Y - b.Y⟩

/-- `Vector2.Mulf` from src/unnamed/part_001 lines 105-109. -/
def Mulf (v : Vector2) (s : ℚ) : Vector2 := ⟨v.X * s, v.Y * s⟩

/-- `Vector2.Dot` from src/unnamed/part_001 lines 182-184. -/
def Dot (v b : Vector2) : ℚ := v.X * b.X + v.Y * b.Y

/-- `Vector2.LengthSquared` from src/unnamed/part_001 lines 136-138. -/
def LengthSquared (v : Vector2) : ℚ := v.X * v.X + v.Y * v.Y

/-- `Vector2.IsNormalized` from src/unnamed/part_001 lines 154-157. -/
def IsNormalized (v : Vector2) : Bool := IsEqualApprox v.LengthSquared 1

end Vector2

/-- The three-component vector of src/pkg/mathgd/vector3.go, with float64
idealised as ℚ. -/
structure Vector3 where
  X : ℚ
  Y : ℚ
  Z : ℚ
deriving DecidableEq, Repr

namespace Vector3

/-- `Vector3.Sub` from src/pkg/mathgd/vector3.go lines 99-102. -/
def Sub (v withv : Vector3) : Vector3 := ⟨v.X - withv.X, v.Y - withv.Y, v.Z - withv.Z⟩

/-- `Vector3.Mulf` from src/pkg/mathgd/vector3.go lines 114-117. -/
def Mulf (v : Vector3) (s : ℚ) : Vector3 := ⟨v.X * s, v.Y * s, v.Z * s⟩

/-- `Vector3.Dot` from src/pkg/mathgd/vector3.go lines 158-160. -/
def Dot (v withv : Vector3) : ℚ := v.X * withv.X + v.Y * withv.Y + v.Z * withv.Z

/-- `Vector3.LengthSquared` from src/pkg/mathgd/vector3.go lines 294-300. -/
def LengthSquared (v : Vector3) : ℚ := v.X * v.X + v.Y * v.Y + v.Z * v.Z

/-- `Vector3.IsNormalized` from src/pkg/mathgd/vector3.go lines 319-322. -/
def IsNormalized (v : Vector3) : Bool := IsEqualApprox v.LengthSquared 1

end Vector3

/-- Extended rational: a float64 value that is either finite or one of the
IEEE infinities.  The source's division helpers produce `math.Inf(1)`;
`negInf` exists so the specification's sign-following prediction can be
stated and compared against the code. -/
inductive ERat where
  | fin (q : ℚ)
  | posInf
  | negInf
deriving DecidableEq, Repr

/-- Vector2 whose components may be infinite, the result type of the
division operations of src/unnamed/part_001. -/
structure EVector2 where
  X : ERat
  Y : ERat
deriving DecidableEq, Repr

/-- Vector3 whose components may be infinite, the result type of the
division operations of src/pkg/mathgd/vector3.go. -/
structure EVector3 where
  X : ERat
  Y : ERat
  Z : ERat
deriving DecidableEq, Repr

/-- `Vector2.Div` from src/unnamed/part_001 lines 78-91: each component
whose divisor is zero becomes `math.Inf(1)`. -/
def Vector2.Div (v b : Vector2) : EVector2 :=
  ⟨if b.X = 0 then .posInf else .fin (v.X / b.X),
   if b.Y = 0 then .posInf else .fin (v.Y / b.Y)⟩

/-- `Vector2.Divf` from src/unnamed/part_001 lines 111-120: a zero scalar
divisor sets both components to `math.Inf(1)`. -/
def Vector2.Divf (v : Vector2) (s : ℚ) : EVector2 :=
  if s = 0 then ⟨.posInf, .posInf⟩ else ⟨.fin (v.X / s), .fin (v.Y / s)⟩

/-- `Vector3.Div` from src/pkg/mathgd/vector3.go lines 119-138. -/
def Vector3.Div (v withv : Vector3) : EVector3 :=
  ⟨if withv.X = 0 then .posInf else .fin (v.X / withv.X),
   if withv.Y = 0 then .posInf else .fin (v.Y / withv.Y),
   if withv.Z = 0 then .posInf else .fin (v.Z / withv.Z)⟩

/-- `Vector3.Divf` from src/pkg/mathgd/vector3.go lines 140-147. -/
def Vector3.Divf (v : Vector3) (withf : ℚ) : EVector3 :=
  if withf = 0 then ⟨.posInf, .posInf, .posInf⟩
  else ⟨.fin (v.X / withf), .fin (v.Y / withf), .fin (v.Z / withf)⟩

/-- `Vector2.Slide` from src/unnamed/part_001 lines 282-287.  The source
aborts the process (Go `panic`) when the normal is not normalized; the
abort is modelled as `none`. -/
def Vector2.Slide (v normal : Vector2) : Option Vector2 :=
  if !normal.IsNormalized then none
  else some (v.Sub (normal.Mulf (v.Dot normal)))

/-- `Vector2.Reflect` from src/unnamed/part_001 lines 293-299.  The source
aborts the process (Go `panic`) when the normal is not normalized; the
abort is modelled as `none`. -/
def Vector2.Reflect (v normal : Vector2) : Option Vector2 :=
  if !normal.IsNormalized then none
  else some (((normal.Mulf 2).Mulf (v.Dot normal)).Sub v)

/-- `Vector3.Slide` from src/pkg/mathgd/vector3.go lines 334-339.  The
source returns the receiver unchanged when the normal is not normalized;
it has no abort path, so the result is always `some`. -/
def Vector3.Slide (v normal : Vector3) : Option Vector3 :=
  if !normal.IsNormalized then some v
  else some (v.Sub (normal.Mulf (v.Dot normal)))

/-- `Vector3.Reflect` from src/pkg/mathgd/vector3.go lines 345-351.  The
source returns the receiver unchanged when the normal is not normalized;
it has no abort path, so the result is always `some`. -/
def Vector3.Reflect (v normal : Vector3) : Option Vector3 :=
  if !normal.IsNormalized then some v
  else some (((normal.Mulf (v.Dot normal)).Mulf 2).Sub v)

/-- The quaternion of src/unnamed/part_002 (package quaternion). -/
structure Quaternion where
  X : ℚ
  Y : ℚ
  Z : ℚ
  W : ℚ
deriving DecidableEq, Repr

/-- `IDENTITY` from src/unnamed/part_002 lines 76-78. -/
def Quaternion.IDENTITY : Quaternion := ⟨0, 0, 0, 1⟩

/-- `Rotated` from src/unnamed/part_002 lines 87-92: an unnormalized axis
yields the identity quaternion. -/
def Quaternion.Rotated (axisNormal : Vector3) (angle : ℚ) : Quaternion :=
  if !axisNormal.IsNormalized then Quaternion.IDENTITY
  else ⟨axisNormal.X, axisNormal.Y, axisNormal.Z, angle⟩

/-- The 2D affine transform of src/unnamed/part_000 (package transform2d):
three Vector2 columns. -/
structure Transform2D where
  Columns : Fin 3 → Vector2

instance : DecidableEq Transform2D := fun s t =>
  decidable_of_iff (s.Columns = t.Columns)
    (by cases s; cases t; simp)

namespace Transform2D

/-- `tdotx` from src/unnamed/part_000 lines 163-165. -/
def tdotx (t : Transform2D) (v : Vector2) : ℚ :=
  (t.Columns 0).X * v.X + (t.Columns 1).X * v.Y

/-- `tdoty` from src/unnamed/part_000 lines 168-170. -/
def tdoty (t : Transform2D) (v : Vector2) : ℚ :=
  (t.Columns 0).Y * v.X + (t.Columns 1).Y * v.Y

/-- `determinant` from src/unnamed/part_000 lines 173-175. -/
def determinant (t : Transform2D) : ℚ :=
  (t.Columns 0).X * (t.Columns 1).Y - (t.Columns 1).X * (t.Columns 0).Y

/-- `Xform` from src/unnamed/part_000 lines 158-160. -/
def Xform (t : Transform2D) (vec : Vector2) : Vector2 :=
  (Vector2.mk (t.tdotx vec) (t.tdoty vec)).Add (t.Columns 2)

/-- The Go zero value `Transform2D{}`: all columns zero. -/
def zeroValue : Transform2D := ⟨![⟨0, 0⟩, ⟨0, 0⟩, ⟨0, 0⟩]⟩

/-- `Inverse` from src/unnamed/part_000 lines 126-138: zero determinant
returns the zero-value transform, otherwise the transposed basis with an
origin computed by the receiver's own (pre-inversion) `tdotx`/`tdoty`. -/
def Inverse (t : Transform2D) : Transform2D :=
  if t.determinant = 0 then zeroValue
  else
    ⟨![⟨(t.Columns 0).X, (t.Columns 1).X⟩,
       ⟨(t.Columns 0).Y, (t.Columns 1).Y⟩,
       ⟨-(t.tdotx (t.Columns 2)), -(t.tdoty (t.Columns 2))⟩]⟩

/-- `AffineInverse` from src/unnamed/part_000 lines 141-155. -/
def AffineInverse (t : Transform2D) : Transform2D :=
  let det := t.determinant
  if det = 0 then zeroValue
  else
    let idet := 1 / det
    ⟨![⟨(t.Columns 1).Y * idet, -(t.Columns 0).Y * idet⟩,
       ⟨-(t.Columns 1).X * idet, (t.Columns 0).X * idet⟩,
       ⟨-(t.tdotx (t.Columns 2)) * idet, -(t.tdoty (t.Columns 2)) * idet⟩]⟩

end Transform2D

/-- `utils.Dot3` from the internal utils package (src/pkg/mathgd/vector3.go
companion file, lines 563-565 of the combined source). -/
def Dot3 (a b : Fin 3 → ℚ) : ℚ := a 0 * b 0 + a 1 * b 1 + a 2 * b 2

/-- The 3×3 basis matrix of src/pkg/basis/basis.go (identical in
src/pkg/mathgd/basis.go), stored as rows. -/
structure Basis where
  Rows : Fin 3 → Fin 3 → ℚ

instance : DecidableEq Basis := fun s t =>
  decidable_of_iff (s.Rows = t.Rows)
    (by cases s; cases t; simp)

/-- `cofac` from src/pkg/basis/basis.go lines 188-190. -/
def cofac (rows : Fin 3 → Fin 3 → ℚ) (row1 col1 row2 col2 : Fin 3) : ℚ :=
  rows row1 col1 * rows row2 col2 - rows row1 col2 * rows row2 col1

namespace Basis

/-- `Xform` from src/pkg/basis/basis.go lines 173-179. -/
def Xform (b : Basis) (pVector : Fin 3 → ℚ) : Fin 3 → ℚ :=
  ![Dot3 (b.Rows 0) pVector, Dot3 (b.Rows 1) pVector, Dot3 (b.Rows 2) pVector]

/-- `Determinant` from src/pkg/basis/basis.go lines 181-185. -/
def Determinant (b : Basis) : ℚ :=
  b.Rows 0 0 * (b.Rows 1 1 * b.Rows 2 2 - b.Rows 2 1 * b.Rows 1 2) -
    b.Rows 1 0 * (b.Rows 0 1 * b.Rows 2 2 - b.Rows 2 1 * b.Rows 0 2) +
    b.Rows 2 0 * (b.Rows 0 1 * b.Rows 1 2 - b.Rows 1 1 * b.Rows 0 2)

/-- `Invert` from src/pkg/basis/basis.go lines 193-215 (identical in
src/pkg/mathgd/basis.go).  The Go method mutates the receiver row by row:
row 0 is overwritten first, and the cofactors used for rows 1 and 2 are
then read from the already partially overwritten matrix.  The embedding
reproduces that order with successive `Function.update`s. -/
def Invert (b : Basis) : Except String Basis :=
  let co : Fin 3 → ℚ :=
    ![cofac b.Rows 1 1 2 2, cofac b.Rows 1 2 2 0, cofac b.Rows 1 0 2 1]
  let det := b.Rows 0 0 * co 0 + b.Rows 0 1 * co 1 + b.Rows 0 2 * co 2
  if det = 0 then Except.error "matrix is not invertible, determinant is zero"
  else
    let s := 1 / det
    let rows1 : Fin 3 → Fin 3 → ℚ :=
      ![![co 0 * s, cofac b.Rows 0 2 2 1 * s, cofac b.Rows 0 1 1 2 * s],
        b.Rows 1, b.Rows 2]
    let rows2 : Fin 3 → Fin 3 → ℚ :=
      ![rows1 0,
        ![co 1 * s, cofac rows1 0 0 2 2 * s, cofac rows1 0 2 1 0 * s],
        rows1 2]
    let rows3 : Fin 3 → Fin 3 → ℚ :=
      ![rows2 0, rows2 1,
        ![co 2 * s, cofac rows2 0 1 2 0 * s, cofac rows2 0 0 1 1 * s]]
    Except.ok ⟨rows3⟩

end Basis

/-- Componentwise approximate equality of 3-component arrays, the
`[3]float64` counterpart of `Vector3.IsEqualApprox`
(src/pkg/mathgd/vector3.go lines 324-326). -/
def arr3IsEqualApprox (a b : Fin 3 → ℚ) : Bool :=
  IsEqualApprox (a 0) (b 0) && IsEqualApprox (a 1) (b 1) && IsEqualApprox (a 2) (b 2)

/-- `GetClosestPointToSegment` from src/pkg/geometry2d/geometry2d.go
lines 124-141.  The segment is passed as its two endpoints. -/
def GetClosestPointToSegment (point seg0 seg1 : Vector2) : Vector2 :=
  let p := point.Sub seg0
  let n := seg1.Sub seg0
  let l2 := n.LengthSquared
  if l2 < 1 / 10 ^ 20 then seg0
  else
    let d := n.Dot p / l2
    if d ≤ 0 then seg0
    else if d ≥ 1 then seg1
    else seg0.Add (n.Mulf d)

/-- `IsPolygonClockwise` from src/pkg/geometry2d/geometry2d.go
lines 224-238: fewer than 3 points short-circuits to `false`; otherwise
the signed-area style sum `(x2-x1)*(y2+y1)` decides the winding. -/
def IsPolygonClockwise (polygon : List Vector2) : Bool :=
  let c := polygon.length
  if c < 3 then false
  else
    let sum := (List.range c).foldl (fun acc i =>
      let v1 := polygon.getD i ⟨0, 0⟩
      let v2 := polygon.getD ((i + 1) % c) ⟨0, 0⟩
      acc + (v2.X - v1.X) * (v2.Y + v1.Y)) 0
    sum > 0

/-- The two-component vector of src/unnamed/part_001 over the reals: the
idealisation used for the length/normalisation functions, which need a
square root and therefore cannot live over ℚ. -/
structure Vector2R where
  X : ℝ
  Y : ℝ

/-- `Vector2.Length` from src/unnamed/part_001 lines 132-134, over ℝ. -/
noncomputable def Vector2R.Length (v : Vector2R) : ℝ :=
  Real.sqrt (v.X * v.X + v.Y * v.Y)

/-- `Vector2.Normalize`/`Normalized` from src/unnamed/part_001
lines 140-152, over ℝ: when the squared length is nonzero both components
are divided by its square root, otherwise the vector is left unchanged. -/
noncomputable def Vector2R.Normalized (v : Vector2R) : Vector2R :=
  let l := v.X * v.X + v.Y * v.Y
  if l = 0 then v
  else ⟨v.X / Real.sqrt l, v.Y / Real.sqrt l⟩

/-- The three-component vector of src/pkg/mathgd/vector3.go over ℝ. -/
structure Vector3R where
  X : ℝ
  Y : ℝ
  Z : ℝ

/-- `Vector3.Length` from src/pkg/mathgd/vector3.go lines 286-292. -/
noncomputable def Vector3R.Length (v : Vector3R) : ℝ :=
  Real.sqrt (v.X * v.X + v.Y * v.Y + v.Z * v.Z)

/-- `Vector3.Normalize`/`Normalized` from src/pkg/mathgd/vector3.go
lines 302-317: a zero squared length sets the vector to `(0, 0, 0)`,
otherwise each component is divided by the length. -/
noncomputable def Vector3R.Normalized (v : Vector3R) : Vector3R :=
  let lengthsq := v.X * v.X + v.Y * v.Y + v.Z * v.Z
  if lengthsq = 0 then ⟨0, 0, 0⟩
  else ⟨v.X / Real.sqrt lengthsq, v.Y / Real.sqrt lengthsq, v.Z / Real.sqrt lengthsq⟩

/-- `IsEqualApprox` of src/pkg/mathgd/mathgd.go lines 74-76 read over ℝ,
as a proposition (real equality is not decidable). -/
def IsEqualApproxR (x y : ℝ) : Prop := |x - y| < 1 / 100000

/-- Evaluation helper: a vector of squared length 4 fails the
`IsNormalized` tolerance test of src/unnamed/part_001 lines 154-157. -/
theorem isNormalized_zero_two_false : Vector2.IsNormalized ⟨0, 2⟩ = false := by
  simp only [Vector2.IsNormalized, IsEqualApprox, IsZeroApprox, Vector2.LengthSquared,
    CMP_EPSILON, decide_eq_false_iff_not, not_lt]
  rw [show (0 * 0 + 2 * 2 - 1 : ℚ) = 3 by norm_num, abs_of_nonneg (by norm_num)]
  norm_num

/-- Evaluation helper: the 3D vector (0, 0, 2) fails the `IsNormalized`
tolerance test of src/pkg/mathgd/vector3.go lines 319-322. -/
theorem isNormalized_zero_zero_two_false : Vector3.IsNormalized ⟨0, 0, 2⟩ = false := by
  simp only [Vector3.IsNormalized, IsEqualApprox, IsZeroApprox, Vector3.LengthSquared,
    CMP_EPSILON, decide_eq_false_iff_not, not_lt]
  rw [show (0 * 0 + 0 * 0 + 2 * 2 - 1 : ℚ) = 3 by norm_num, abs_of_nonneg (by norm_num)]
  norm_num

/-- Any argument strictly between -TAU and TAU is a fixed point of the
Go-`math.Mod`-by-TAU operation used by `AngleDifference`. -/
theorem gomod_small (x : ℚ) (h1 : -TAU < x) (h2 : x < TAU) : gomod x TAU = x := by
  have htau : (0 : ℚ) < TAU := by norm_num [TAU]
  unfold gomod rtrunc
  rcases le_or_lt 0 (x / TAU) with h | h
  · rw [if_pos h, Int.floor_eq_zero_iff.mpr (Set.mem_Ico.mpr ⟨h, (div_lt_one htau).mpr h2⟩)]
    push_cast
    ring
  · rw [if_neg (not_le.mpr h),
      Int.ceil_eq_zero_iff.mpr (Set.mem_Ioc.mpr ⟨(lt_div_iff₀ htau).mpr (by linarith), h.le⟩)]
    push_cast
    ring

/-- Evaluation helper: the angle difference from 0 to -1 radian is the
negative value -1. -/
theorem angleDifference_zero_negOne : AngleDifference 0 (-1) = -1 := by
  simp only [AngleDifference]
  rw [show (-1 : ℚ) - 0 = -1 by ring]
  rw [gomod_small (-1) (by norm_num [TAU]) (by norm_num [TAU])]
  rw [show (2 * (-1 : ℚ)) = -2 by norm_num]
  rw [gomod_small (-2) (by norm_num [TAU]) (by norm_num [TAU])]
  norm_num

/-- C1: the spec claims `B.Invert()` followed by `Xform` round-trips every
vector of a non-singular basis.  The Go port overwrites row 0 of the
receiver and then reads the remaining cofactors from the partially
overwritten matrix (Godot's original computes all cofactors before
assigning), so the returned matrix is not the inverse: for the basis with
rows [[1,1,0],[0,1,1],[1,0,1]] (determinant 2) and x = (1,0,0), the
round-trip produces (1, 1/4, -3/8), far outside the CMP_EPSILON
tolerance. -/
theorem C1_invert_xform_roundtrip_fails_on_concrete_basis :
    Basis.Determinant ⟨![![1, 1, 0], ![0, 1, 1], ![1, 0, 1]]⟩ ≠ 0 ∧
    (Basis.Invert ⟨![![1, 1, 0], ![0, 1, 1], ![1, 0, 1]]⟩).map
      (fun m => m.Xform ((⟨![![1, 1, 0], ![0, 1, 1], ![1, 0, 1]]⟩ : Basis).Xform ![1, 0, 0]) 1)
      = Except.ok (1 / 4) ∧
    (Basis.Invert ⟨![![1, 1, 0], ![0, 1, 1], ![1, 0, 1]]⟩).map
      (fun m => arr3IsEqualApprox
        (m.Xform ((⟨![![1, 1, 0], ![0, 1, 1], ![1, 0, 1]]⟩ : Basis).Xform ![1, 0, 0]))
        ![1, 0, 0])
      = Except.ok false := by
  refine ⟨by simp [Basis.Determinant, Matrix.vecHead, Matrix.vecTail], ?_, ?_⟩
  · simp only [Basis.Invert, cofac, Basis.Xform, Dot3,
      Matrix.cons_val_zero, Matrix.cons_val_one, Matrix.cons_val_two,
      Matrix.head_cons, Matrix.tail_cons, Matrix.vecHead, Matrix.vecTail,
      Function.comp]
    norm_num [Except.map, Matrix.cons_val_zero, Matrix.cons_val_one, Matrix.cons_val_two,
      Matrix.head_cons, Matrix.tail_cons]
  · simp only [Basis.Invert, cofac, Basis.Xform, Dot3,
      Matrix.cons_val_zero, Matrix.cons_val_one, Matrix.cons_val_two,
      Matrix.head_cons, Matrix.tail_cons, Matrix.vecHead, Matrix.vecTail,
      Function.comp]
    norm_num [Except.map, arr3IsEqualApprox, IsEqualApprox, IsZeroApprox, CMP_EPSILON,
      Matrix.cons_val_zero, Matrix.cons_val_one, Matrix.cons_val_two,
      Matrix.head_cons, Matrix.tail_cons]
    intro h
    exact absurd h (by rw [abs_of_nonneg (by norm_num)]; norm_num)

/-- C2: `Basis.Invert` signals the "singular matrix" error exactly when the
determinant is zero (an exact zero test, no epsilon), and succeeds for
every basis with nonzero determinant.  The determinant computed inside
`Invert` by the cofactor expansion along row 0 coincides with
`Determinant` in exact arithmetic. -/
theorem C2_invert_error_iff_determinant_zero (b : Basis) :
    (Basis.Invert b = Except.error "matrix is not invertible, determinant is zero"
      ↔ Basis.Determinant b = 0) ∧
    ((Basis.Invert b).isOk = true ↔ Basis.Determinant b ≠ 0) := by
  have key : b.Rows 0 0 * cofac b.Rows 1 1 2 2 + b.Rows 0 1 * cofac b.Rows 1 2 2 0 +
      b.Rows 0 2 * cofac b.Rows 1 0 2 1 = Basis.Determinant b := by
    simp only [cofac, Basis.Determinant]
    ring
  by_cases h : Basis.Determinant b = 0
  · simp only [Basis.Invert, Matrix.cons_val_zero, Matrix.cons_val_one, Matrix.cons_val_two,
      Matrix.head_cons, Matrix.tail_cons, key]
    rw [if_pos h]
    simp [h, Except.isOk, Except.toBool]
  · simp only [Basis.Invert, Matrix.cons_val_zero, Matrix.cons_val_one, Matrix.cons_val_two,
      Matrix.head_cons, Matrix.tail_cons, key]
    rw [if_neg h]
    simp [h, Except.isOk, Except.toBool]

/-- C2 witness: concrete instances of both directions — the identity basis
inverts without error, a zero row forces the singular-matrix error. -/
theorem C2_invert_error_iff_determinant_zero_witness :
    (Basis.Invert ⟨![![1, 0, 0], ![0, 1, 0], ![0, 0, 1]]⟩).isOk = true ∧
    Basis.Invert ⟨![![0, 0, 0], ![0, 1, 0], ![0, 0, 1]]⟩
      = Except.error "matrix is not invertible, determinant is zero" := by
  constructor
  · exact (C2_invert_error_iff_determinant_zero ⟨![![1, 0, 0], ![0, 1, 0], ![0, 0, 1]]⟩).2.mpr
      (by simp [Basis.Determinant, Matrix.vecHead, Matrix.vecTail])
  · exact (C2_invert_error_iff_determinant_zero ⟨![![0, 0, 0], ![0, 1, 0], ![0, 0, 1]]⟩).1.mpr
      (by simp [Basis.Determinant, Matrix.vecHead, Matrix.vecTail])

/-- C3 counterexample: the claim says the sign of the produced infinity
follows the signs of the operands (IEEE semantics give -1/0 = -∞), but the
source sets `math.Inf(1)` unconditionally: dividing the vector (-1,-1) by
the scalar 0 yields positive infinity in the X component, not negative
infinity. -/
theorem C3_negative_numerator_gives_positive_infinity :
    (Vector2.Divf ⟨-1, -1⟩ 0).X = ERat.posInf ∧
    (Vector2.Divf ⟨-1, -1⟩ 0).X ≠ ERat.negInf ∧
    (Vector3.Divf ⟨-1, -1, -1⟩ 0).X = ERat.posInf :=
  ⟨by simp [Vector2.Divf], by simp [Vector2.Divf], by simp [Vector3.Divf]⟩

/-- C3 (amended): division of a Vector2 or Vector3 by a zero scalar or by
a vector with zero components never errors; every component whose divisor
is zero is set to positive infinity `math.Inf(1)` unconditionally,
regardless of the operands' signs. -/
theorem C3_zero_divisor_components_become_positive_infinity :
    (∀ v : Vector2, Vector2.Divf v 0 = ⟨ERat.posInf, ERat.posInf⟩) ∧
    (∀ u : Vector3, Vector3.Divf u 0 = ⟨ERat.posInf, ERat.posInf, ERat.posInf⟩) ∧
    (∀ v b : Vector2, (b.X = 0 → (Vector2.Div v b).X = ERat.posInf) ∧
      (b.Y = 0 → (Vector2.Div v b).Y = ERat.posInf)) ∧
    (∀ u w : Vector3, (w.X = 0 → (Vector3.Div u w).X = ERat.posInf) ∧
      (w.Y = 0 → (Vector3.Div u w).Y = ERat.posInf) ∧
      (w.Z = 0 → (Vector3.Div u w).Z = ERat.posInf)) :=
  ⟨fun v => by simp [Vector2.Divf], fun u => by simp [Vector3.Divf],
    fun v b => ⟨fun h => by simp [Vector2.Div, h], fun h => by simp [Vector2.Div, h]⟩,
    fun u w => ⟨fun h => by simp [Vector3.Div, h], fun h => by simp [Vector3.Div, h],
      fun h => by simp [Vector3.Div, h]⟩⟩

/-- C3 witness: the amended theorem applied at concrete inputs with a zero
scalar divisor and a zero divisor component. -/
theorem C3_zero_divisor_components_become_positive_infinity_witness :
    Vector2.Divf ⟨3, -4⟩ 0 = ⟨ERat.posInf, ERat.posInf⟩ ∧
    ((⟨0, 2⟩ : Vector2).X = 0 ∧ (Vector2.Div ⟨3, 4⟩ ⟨0, 2⟩).X = ERat.posInf) :=
  ⟨C3_zero_divisor_components_become_positive_infinity.1 ⟨3, -4⟩,
    rfl, (C3_zero_divisor_components_become_positive_infinity.2.2.1 ⟨3, 4⟩ ⟨0, 2⟩).1 rfl⟩

/-- C4 counterexample: the claim says both Vector2 and Vector3
`Reflect`/`Slide` abort the process on a non-normalized normal, but the
Vector3 versions return the receiver unchanged without aborting: with the
non-normalized normal (0,0,2) and v = (1,2,3) both calls return `some v`
(an abort is modelled as `none`). -/
theorem C4_vector3_slide_reflect_do_not_abort :
    Vector3.IsNormalized ⟨0, 0, 2⟩ = false ∧
    Vector3.Slide ⟨1, 2, 3⟩ ⟨0, 0, 2⟩ = some ⟨1, 2, 3⟩ ∧
    Vector3.Reflect ⟨1, 2, 3⟩ ⟨0, 0, 2⟩ = some ⟨1, 2, 3⟩ :=
  ⟨isNormalized_zero_zero_two_false,
    by simp [Vector3.Slide, isNormalized_zero_zero_two_false],
    by simp [Vector3.Reflect, isNormalized_zero_zero_two_false]⟩

/-- C4 (amended): on a normal that is not normalized, the Vector2
`Slide`/`Reflect` abort the process (modelled as `none`), while the
Vector3 `Slide`/`Reflect` silently return the receiver unchanged. -/
theorem C4_vector2_aborts_vector3_returns_receiver :
    (∀ v n : Vector2, n.IsNormalized = false →
      Vector2.Slide v n = none ∧ Vector2.Reflect v n = none) ∧
    (∀ v n : Vector3, n.IsNormalized = false →
      Vector3.Slide v n = some v ∧ Vector3.Reflect v n = some v) := by
  constructor
  · intro v n h
    constructor <;> simp [Vector2.Slide, Vector2.Reflect, h]
  · intro v n h
    constructor <;> simp [Vector3.Slide, Vector3.Reflect, h]

/-- C4 witness: the amended theorem applied to concrete non-normalized
normals. -/
theorem C4_vector2_aborts_vector3_returns_receiver_witness :
    (Vector2.IsNormalized ⟨0, 2⟩ = false ∧
      Vector2.Slide ⟨1, 2⟩ ⟨0, 2⟩ = none ∧ Vector2.Reflect ⟨1, 2⟩ ⟨0, 2⟩ = none) ∧
    (Vector3.IsNormalized ⟨0, 0, 2⟩ = false ∧
      Vector3.Slide ⟨1, 2, 3⟩ ⟨0, 0, 2⟩ = some ⟨1, 2, 3⟩ ∧
      Vector3.Reflect ⟨1, 2, 3⟩ ⟨0, 0, 2⟩ = some ⟨1, 2, 3⟩) :=
  ⟨⟨isNormalized_zero_two_false,
    C4_vector2_aborts_vector3_returns_receiver.1 ⟨1, 2⟩ ⟨0, 2⟩ isNormalized_zero_two_false⟩,
    isNormalized_zero_zero_two_false,
    C4_vector2_aborts_vector3_returns_receiver.2 ⟨1, 2, 3⟩ ⟨0, 0, 2⟩
      isNormalized_zero_zero_two_false⟩

/-- C5: for every axis that is not normalized and every angle, the
axis-angle quaternion constructor `Rotated` returns the identity
quaternion (0, 0, 0, 1) instead of reporting an error (the function has no
error channel at all). -/
theorem C5_rotated_unnormalized_axis_yields_identity (axis : Vector3) (angle : ℚ)
    (h : axis.IsNormalized = false) :
    Quaternion.Rotated axis angle = ⟨0, 0, 0, 1⟩ := by
  simp [Quaternion.Rotated, Quaternion.IDENTITY, h]

/-- C5 witness: the non-normalized axis (0,0,2) with angle 7. -/
theorem C5_rotated_unnormalized_axis_yields_identity_witness :
    Vector3.IsNormalized ⟨0, 0, 2⟩ = false ∧
    Quaternion.Rotated ⟨0, 0, 2⟩ 7 = ⟨0, 0, 0, 1⟩ :=
  ⟨isNormalized_zero_zero_two_false,
    C5_rotated_unnormalized_axis_yields_identity ⟨0, 0, 2⟩ 7 isNormalized_zero_zero_two_false⟩

/-- C6: the zero-determinant half of the claim holds (both `Inverse` and
`AffineInverse` return the zero-value Transform2D), but on nonzero
determinant the returned transform is not the computed inverse: the Go
port computes the output origin with the receiver's pre-inversion
`tdotx`/`tdoty` (Godot applies the already-inverted basis), so for the
pure rotation with columns (0,-1),(1,0) and origin (1,0), applying the
"inverse" after the transform sends (0,0) to (0,2) instead of back to
(0,0). -/
theorem C6_inverse_returns_zero_value_but_origin_is_wrong :
    Transform2D.determinant ⟨![⟨1, 2⟩, ⟨2, 4⟩, ⟨3, 4⟩]⟩ = 0 ∧
    Transform2D.Inverse ⟨![⟨1, 2⟩, ⟨2, 4⟩, ⟨3, 4⟩]⟩ = Transform2D.zeroValue ∧
    Transform2D.AffineInverse ⟨![⟨1, 2⟩, ⟨2, 4⟩, ⟨3, 4⟩]⟩ = Transform2D.zeroValue ∧
    Transform2D.determinant ⟨![⟨0, -1⟩, ⟨1, 0⟩, ⟨1, 0⟩]⟩ ≠ 0 ∧
    (Transform2D.AffineInverse ⟨![⟨0, -1⟩, ⟨1, 0⟩, ⟨1, 0⟩]⟩).Xform
      ((⟨![⟨0, -1⟩, ⟨1, 0⟩, ⟨1, 0⟩]⟩ : Transform2D).Xform ⟨0, 0⟩) = ⟨0, 2⟩ ∧
    (Transform2D.Inverse ⟨![⟨0, -1⟩, ⟨1, 0⟩, ⟨1, 0⟩]⟩).Xform
      ((⟨![⟨0, -1⟩, ⟨1, 0⟩, ⟨1, 0⟩]⟩ : Transform2D).Xform ⟨0, 0⟩) = ⟨0, 2⟩ := by
  norm_num [Transform2D.determinant, Transform2D.AffineInverse,
    Transform2D.Inverse, Transform2D.Xform, Transform2D.tdotx, Transform2D.tdoty,
    Vector2.Add, Matrix.cons_val_zero, Matrix.cons_val_one, Matrix.cons_val_two,
    Matrix.head_cons, Matrix.tail_cons, Vector2.mk.injEq]

/-- C7: whenever the angle difference from `pFrom` to `pTo` is negative,
`RotateToward` returns exactly -1.0 regardless of the requested delta. -/
theorem C7_rotate_toward_negative_difference_returns_minus_one
    (pFrom pTo pDelta : ℚ) (h : AngleDifference pFrom pTo < 0) :
    RotateToward pFrom pTo pDelta = -1 := by
  simp only [RotateToward]
  rw [if_neg (not_le.mpr h)]

/-- C7 witness: from 0 toward -1 radian (difference -1 < 0) with delta 5
returns -1. -/
theorem C7_rotate_toward_negative_difference_returns_minus_one_witness :
    AngleDifference 0 (-1) < 0 ∧ RotateToward 0 (-1) 5 = -1 :=
  ⟨by rw [angleDifference_zero_negOne]; norm_num,
    C7_rotate_toward_negative_difference_returns_minus_one 0 (-1) 5
      (by rw [angleDifference_zero_negOne]; norm_num)⟩

/-- C8: normalizing any nonzero Vector2 or Vector3 produces a vector of
length approximately 1 (exactly 1 in the exact-real idealisation, hence
within the CMP_EPSILON tolerance), and the zero vector normalizes to the
zero vector. -/
theorem C8_normalized_length_one :
    (∀ v : Vector2R, v ≠ ⟨0, 0⟩ → IsEqualApproxR (Vector2R.Normalized v).Length 1) ∧
    Vector2R.Normalized ⟨0, 0⟩ = ⟨0, 0⟩ ∧
    (∀ u : Vector3R, u ≠ ⟨0, 0, 0⟩ → IsEqualApproxR (Vector3R.Normalized u).Length 1) ∧
    Vector3R.Normalized ⟨0, 0, 0⟩ = ⟨0, 0, 0⟩ := by
  refine ⟨?_, by norm_num [Vector2R.Normalized], ?_, by norm_num [Vector3R.Normalized]⟩
  · intro v hv
    have hxy : v.X ≠ 0 ∨ v.Y ≠ 0 := by
      by_contra hc
      push_neg at hc
      obtain ⟨x, y⟩ := v
      simp only at hc
      exact hv (by simp [hc.1, hc.2])
    have hl : 0 < v.X * v.X + v.Y * v.Y := by
      rcases hxy with h | h
      · nlinarith [mul_self_nonneg v.Y, mul_self_pos.mpr h]
      · nlinarith [mul_self_nonneg v.X, mul_self_pos.mpr h]
    have hs : Real.sqrt (v.X * v.X + v.Y * v.Y) * Real.sqrt (v.X * v.X + v.Y * v.Y)
        = v.X * v.X + v.Y * v.Y := Real.mul_self_sqrt hl.le
    simp only [Vector2R.Normalized, Vector2R.Length, IsEqualApproxR]
    rw [if_neg hl.ne']
    rw [show v.X / Real.sqrt (v.X * v.X + v.Y * v.Y) * (v.X / Real.sqrt (v.X * v.X + v.Y * v.Y)) +
        v.Y / Real.sqrt (v.X * v.X + v.Y * v.Y) * (v.Y / Real.sqrt (v.X * v.X + v.Y * v.Y)) =
        (v.X * v.X + v.Y * v.Y) /
          (Real.sqrt (v.X * v.X + v.Y * v.Y) * Real.sqrt (v.X * v.X + v.Y * v.Y)) from by ring]
    rw [hs, div_self hl.ne', Real.sqrt_one]
    norm_num
  · intro u hu
    have hxyz : u.X ≠ 0 ∨ u.Y ≠ 0 ∨ u.Z ≠ 0 := by
      by_contra hc
      push_neg at hc
      obtain ⟨x, y, z⟩ := u
      simp only at hc
      exact hu (by simp [hc.1, hc.2.1, hc.2.2])
    have hl : 0 < u.X * u.X + u.Y * u.Y + u.Z * u.Z := by
      rcases hxyz with h | h | h
      · nlinarith [mul_self_nonneg u.Y, mul_self_nonneg u.Z, mul_self_pos.mpr h]
      · nlinarith [mul_self_nonneg u.X, mul_self_nonneg u.Z, mul_self_pos.mpr h]
      · nlinarith [mul_self_nonneg u.X, mul_self_nonneg u.Y, mul_self_pos.mpr h]
    have hs : Real.sqrt (u.X * u.X + u.Y * u.Y + u.Z * u.Z) *
        Real.sqrt (u.X * u.X + u.Y * u.Y + u.Z * u.Z)
        = u.X * u.X + u.Y * u.Y + u.Z * u.Z := Real.mul_self_sqrt hl.le
    simp only [Vector3R.Normalized, Vector3R.Length, IsEqualApproxR]
    rw [if_neg hl.ne']
    rw [show u.X / Real.sqrt (u.X * u.X + u.Y * u.Y + u.Z * u.Z) *
        (u.X / Real.sqrt (u.X * u.X + u.Y * u.Y + u.Z * u.Z)) +
        u.Y / Real.sqrt (u.X * u.X + u.Y * u.Y + u.Z * u.Z) *
        (u.Y / Real.sqrt (u.X * u.X + u.Y * u.Y + u.Z * u.Z)) +
        u.Z / Real.sqrt (u.X * u.X + u.Y * u.Y + u.Z * u.Z) *
        (u.Z / Real.sqrt (u.X * u.X + u.Y * u.Y + u.Z * u.Z)) =
        (u.X * u.X + u.Y * u.Y + u.Z * u.Z) /
          (Real.sqrt (u.X * u.X + u.Y * u.Y + u.Z * u.Z) *
            Real.sqrt (u.X * u.X + u.Y * u.Y + u.Z * u.Z)) from by ring]
    rw [hs, div_self hl.ne', Real.sqrt_one]
    norm_num

/-- C8 witness: the nonzero vectors (3,4) and (1,2,2). -/
theorem C8_normalized_length_one_witness :
    ((⟨3, 4⟩ : Vector2R) ≠ ⟨0, 0⟩ ∧ IsEqualApproxR (Vector2R.Normalized ⟨3, 4⟩).Length 1) ∧
    ((⟨1, 2, 2⟩ : Vector3R) ≠ ⟨0, 0, 0⟩ ∧
      IsEqualApproxR (Vector3R.Normalized ⟨1, 2, 2⟩).Length 1) := by
  have h2 : (⟨3, 4⟩ : Vector2R) ≠ ⟨0, 0⟩ := by
    intro hEq
    have := congrArg Vector2R.X hEq
    norm_num at this
  have h3 : (⟨1, 2, 2⟩ : Vector3R) ≠ ⟨0, 0, 0⟩ := by
    intro hEq
    have := congrArg Vector3R.X hEq
    norm_num at this
  exact ⟨⟨h2, C8_normalized_length_one.1 _ h2⟩, h3, C8_normalized_length_one.2.2.1 _ h3⟩

/-- C9: for a degenerate segment whose endpoints coincide,
`GetClosestPointToSegment` returns that endpoint whatever the query point
is (the squared length 0 falls under the 1e-20 cutoff). -/
theorem C9_degenerate_segment_returns_endpoint (p a : Vector2) :
    GetClosestPointToSegment p a a = a := by
  simp only [GetClosestPointToSegment, Vector2.Sub, Vector2.LengthSquared, sub_self]
  norm_num

/-- C10: `IsPolygonClockwise` returns false for every input of fewer than
3 points, by the early guard and without any use of the signed-area sum. -/
theorem C10_polygon_under_three_points_not_clockwise (polygon : List Vector2)
    (h : polygon.length < 3) :
    IsPolygonClockwise polygon = false := by
  simp [IsPolygonClockwise, if_pos h]

/-- C10 witness: a two-point polygon. -/
theorem C10_polygon_under_three_points_not_clockwise_witness :
    ([⟨0, 0⟩, ⟨1, 1⟩] : List Vector2).length < 3 ∧
    IsPolygonClockwise [⟨0, 0⟩, ⟨1, 1⟩] = false :=
  ⟨by norm_num,
    C10_polygon_under_three_points_not_clockwise [⟨0, 0⟩, ⟨1, 1⟩] (by norm_num)⟩

end GdScript
